import Mathlib

/-!
Shallow embedding of the ZsxqCrawler sync engine
(`zsxq_interactive_crawler.py`, `zsxq_file_downloader.py`).

Conventions of the embedding:
* Timestamps (`create_time`, `end_time` cursors) are integers counting
  milliseconds; the ISO-8601 wire format and its parsing/formatting are
  modelled by plain integer arithmetic on the already-parsed value
  (the code subtracts `timedelta(milliseconds=offset)` resp.
  `timedelta(hours=1)`, which is exactly integer subtraction of
  `offset` resp. `3600000` on the millisecond value).
* The remote source (`fetch_topics_safe`) is a function from the optional
  `end_time` request parameter to a fetch outcome: `failed` covers every
  path on which `fetch_topics_safe` returns `None` (rate-limit code 1059,
  HTTP errors, transport exceptions, undecodable payload), `expired`
  is the `{"expired": True, ...}` dict returned on remote code 14210, and
  `page ts` is a successful response whose `resp_data.topics` list is `ts`.
* Storage (`ZSXQDatabase`, an external collaborator of the engine) is a
  list of stored topic ids; the existence probe
  `SELECT topic_id FROM topics WHERE topic_id = ?` is list membership and
  `import_topic_data` is an idempotent upsert (inserts the id when absent).
* All sessions modelled here run with the stop flag permanently false
  (`set_stop_flag` never called, `stop_check_func` unset), so every
  `is_stopped()` test in the crawl loops takes its false branch; the
  stop-flag mechanism itself is modelled separately (`is_stopped`,
  `interruptible_sleep`).
-/

namespace ZsxqCrawler

/-- A remote item as the engine sees it: the crawl loops of
`zsxq_interactive_crawler.py` only inspect `topic_id` and `create_time`
(milliseconds since epoch in this embedding). -/
structure Topic where
  topic_id : Nat
  create_time : Int
deriving Repr, DecidableEq

/-- Outcome of one `fetch_topics_safe` call, see the conventions above. -/
inductive FetchResult where
  | failed
  | expired
  | page (topics : List Topic)
deriving Repr, DecidableEq

/-- The `total_stats` dict accumulated by every crawl mode:
`{'new_topics': _, 'updated_topics': _, 'errors': _, 'pages': _}`. -/
structure CrawlStats where
  new_topics : Nat
  updated_topics : Nat
  errors : Nat
  pages : Nat
deriving Repr, DecidableEq

/-- What a crawl mode hands back to its caller: either the ordinary
`total_stats` dict, or the `{"expired": True, ...}` dict that
`fetch_topics_safe` produced on remote error code 14210 and that some
modes return verbatim (`return data`). -/
inductive ModeResult where
  | stats (s : CrawlStats)
  | expired
deriving Repr, DecidableEq

/-- `max_retries_per_page = 10`, hardcoded in every crawl mode. -/
def max_retries_per_page : Nat := 10

/-- The coarse skip applied after retry exhaustion:
`timedelta(hours=1)` in milliseconds. -/
def coarse_skip_ms : Int := 3600000

/-- `store_batch_data` (zsxq_interactive_crawler.py:655-713) restricted to
what the engine observes: for each topic, probe existence by id, upsert it,
and count it as updated (when the id was already present) or new.
Returns `(new_topics, updated_topics, storage')`. -/
def store_batch_data : List Topic → List Nat → Nat × Nat × List Nat
  | [], storage => (0, 0, storage)
  | t :: ts, storage =>
    if t.topic_id ∈ storage then
      let r := store_batch_data ts storage
      (r.1, r.2.1 + 1, r.2.2)
    else
      let r := store_batch_data ts (t.topic_id :: storage)
      (r.1 + 1, r.2.1, r.2.2)

/-- The cursor advance shared verbatim by all crawl modes
(e.g. zsxq_interactive_crawler.py:811-824): the next `end_time` is the
`create_time` of `topics[-1]` (the oldest item of the page, the feed being
time-descending) minus `timestamp_offset_ms`. -/
def next_end_time (topics : List Topic) (offset : Int) : Option Int :=
  topics.getLast?.map (fun t => t.create_time - offset)

/-- Outcome of the per-page retry loop of `crawl_historical`
(zsxq_interactive_crawler.py:769-849): `finished` means the whole mode
returns `total_stats` (empty page, expired-as-empty page, or short page),
`pageDone` means the page succeeded and the outer loop continues,
`exhausted` means `retry_count` reached `max_retries_per_page`. -/
inductive PageOutcome where
  | finished (stats : CrawlStats) (storage : List Nat) (endTime : Option Int)
  | pageDone (stats : CrawlStats) (storage : List Nat) (endTime : Option Int)
  | exhausted (stats : CrawlStats) (storage : List Nat) (endTime : Option Int)
deriving Repr, DecidableEq

/-- The inner `while retry_count < max_retries_per_page` loop of
`crawl_historical` (zsxq_interactive_crawler.py:769-849).  The first page
is requested without `end_time` (`current_page == 1` branch); a failed
attempt increments `errors` and moves `end_time` back by `offset`
(the code re-parses and re-formats the cursor string, modelled as integer
subtraction); on remote code 14210 the mode has no `expired` check, the
dict is truthy, `resp_data` is absent, so `topics` is `[]` and the
`if not topics: return total_stats` branch fires. -/
def retryPage (src : Option Int → FetchResult) (perPage : Nat) (offset : Int)
    (firstPage : Bool) : Nat → CrawlStats → List Nat → Option Int → PageOutcome
  | 0, stats, storage, endTime => .exhausted stats storage endTime
  | fuel + 1, stats, storage, endTime =>
    match src (if firstPage then none else endTime) with
    | .failed =>
        retryPage src perPage offset firstPage fuel
          { stats with errors := stats.errors + 1 } storage
          (endTime.map (fun c => c - offset))
    | .expired => .finished stats storage endTime
    | .page topics =>
        if topics.isEmpty then .finished stats storage endTime
        else
          let r := store_batch_data topics storage
          let stats' : CrawlStats :=
            ⟨stats.new_topics + r.1, stats.updated_topics + r.2.1,
             stats.errors, stats.pages + 1⟩
          let endTime' := next_end_time topics offset
          if topics.length < perPage then .finished stats' r.2.2 endTime'
          else .pageDone stats' r.2.2 endTime'

/-- The outer `while completed_pages < pages` loop of `crawl_historical`
(zsxq_interactive_crawler.py:758-866), fuelled by the number of pages still
to complete.  On retry exhaustion the code prints that the page is skipped,
moves the cursor back one hour when one exists, counts the page as
completed (`completed_pages += 1`) and continues.  Besides `total_stats`
the model also exposes the final value of the `end_time` loop variable. -/
def crawlHistoricalGo (src : Option Int → FetchResult) (perPage : Nat) (offset : Int) :
    Nat → Nat → CrawlStats → List Nat → Option Int → ModeResult × Option Int
  | 0, _, stats, _, endTime => (.stats stats, endTime)
  | remaining + 1, completed, stats, storage, endTime =>
    match retryPage src perPage offset (completed == 0) max_retries_per_page
        stats storage endTime with
    | .finished stats' _ endTime' => (.stats stats', endTime')
    | .pageDone stats' storage' endTime' =>
        crawlHistoricalGo src perPage offset remaining (completed + 1)
          stats' storage' endTime'
    | .exhausted stats' storage' endTime' =>
        crawlHistoricalGo src perPage offset remaining (completed + 1)
          stats' storage' (endTime'.map (fun c => c - coarse_skip_ms))

/-- Bounded Historical mode, `crawl_historical(pages, per_page)`
(zsxq_interactive_crawler.py:749-874), run against a remote source and an
initial storage with the default `timestamp_offset_ms = 1`. -/
def crawl_historical (src : Option Int → FetchResult) (storage : List Nat)
    (pages perPage : Nat) : ModeResult × Option Int :=
  crawlHistoricalGo src perPage 1 pages 0 ⟨0, 0, 0, 0⟩ storage none

/-- Outcome of the per-page retry loop of `crawl_incremental`
(zsxq_interactive_crawler.py:1137-1226): `done` means the mode returns
(ordinary stats, or the expired dict passed through), `next` continues the
outer loop, `exhausted` means `retry_count` reached the maximum. -/
inductive IncStep where
  | done (r : ModeResult) (endTime : Option Int)
  | next (stats : CrawlStats) (storage : List Nat) (endTime : Option Int)
  | exhausted (stats : CrawlStats) (endTime : Option Int)
deriving Repr, DecidableEq

/-- The inner retry loop of `crawl_incremental`
(zsxq_interactive_crawler.py:1137-1226).  Every request carries `end_time`.
Remote code 14210 is checked (`if data and data.get('expired'): return
data`).  A non-empty page is first probed for new ids; when none are new
and the page is shorter than `per_page` the mode returns `total_stats`
before storing anything (lines 1167-1170). -/
def incRetry (src : Option Int → FetchResult) (perPage : Nat) (offset : Int) :
    Nat → CrawlStats → List Nat → Option Int → IncStep
  | 0, stats, _, endTime => .exhausted stats endTime
  | fuel + 1, stats, storage, endTime =>
    match src endTime with
    | .expired => .done .expired endTime
    | .failed =>
        incRetry src perPage offset fuel
          { stats with errors := stats.errors + 1 } storage
          (endTime.map (fun c => c - offset))
    | .page topics =>
        if topics.isEmpty then .done (.stats stats) endTime
        else
          let newCount :=
            (topics.filter (fun t => !decide (t.topic_id ∈ storage))).length
          if newCount = 0 ∧ topics.length < perPage then .done (.stats stats) endTime
          else
            let r := store_batch_data topics storage
            .next ⟨stats.new_topics + r.1, stats.updated_topics + r.2.1,
                   stats.errors, stats.pages + 1⟩ r.2.2 (next_end_time topics offset)

/-- The outer `while completed_pages < pages` loop of `crawl_incremental`
(zsxq_interactive_crawler.py:1131-1244), fuelled by the pages still to
complete; retry exhaustion coarse-skips the cursor one hour back and counts
the page as completed, exactly as in `crawl_historical`. -/
def crawlIncrementalGo (src : Option Int → FetchResult) (perPage : Nat) (offset : Int) :
    Nat → CrawlStats → List Nat → Option Int → ModeResult × Option Int
  | 0, stats, _, endTime => (.stats stats, endTime)
  | remaining + 1, stats, storage, endTime =>
    match incRetry src perPage offset max_retries_per_page stats storage endTime with
    | .done r endTime' => (r, endTime')
    | .next stats' storage' endTime' =>
        crawlIncrementalGo src perPage offset remaining stats' storage' endTime'
    | .exhausted stats' endTime' =>
        crawlIncrementalGo src perPage offset remaining stats' storage
          (endTime'.map (fun c => c - coarse_skip_ms))

/-- Incremental mode, `crawl_incremental(pages, per_page)`
(zsxq_interactive_crawler.py:1094-1259), in the `has_data` case: the first
cursor is the oldest stored timestamp minus `timestamp_offset_ms = 1`. -/
def crawl_incremental (src : Option Int → FetchResult) (storage : List Nat)
    (oldest : Int) (pages perPage : Nat) : ModeResult × Option Int :=
  crawlIncrementalGo src perPage 1 pages ⟨0, 0, 0, 0⟩ storage (some (oldest - 1))

/-- Outcome of the per-page retry loop of `crawl_latest_until_complete`
(zsxq_interactive_crawler.py:1294-1459): `stop` means the session ends and
`total_stats` is returned (full-overlap page, empty page, or retry
exhaustion — all of them break the outer loop), `next` continues with the
next older page.  Each constructor carries the running count of
`fetch_topics_safe` calls issued so far. -/
inductive CatchStep where
  | stop (stats : CrawlStats) (storage : List Nat) (fetches : Nat)
  | next (stats : CrawlStats) (storage : List Nat) (endTime : Option Int) (fetches : Nat)
deriving Repr, DecidableEq

/-- The inner retry loop of Catch-up-to-Latest mode
(zsxq_interactive_crawler.py:1294-1459).  Remote code 14210 has no
dedicated check here: the expired dict is truthy, yields `topics = []`,
and the `if not topics: break` branch ends the session.  For a non-empty
page the code counts `existing_count`; a fully known page returns
`total_stats` without storing and without touching `pages`; a fully new
page stores everything; a partial overlap stores only the filtered
`new_topics_list` — both storing branches bump `pages` and continue. -/
def catchRetry (src : Option Int → FetchResult) (perPage : Nat) (offset : Int)
    (firstPage : Bool) : Nat → CrawlStats → List Nat → Option Int → Nat → CatchStep
  | 0, stats, storage, _, fetches => .stop stats storage fetches
  | fuel + 1, stats, storage, endTime, fetches =>
    match src (if firstPage then none else endTime) with
    | .failed =>
        catchRetry src perPage offset firstPage fuel
          { stats with errors := stats.errors + 1 } storage
          (endTime.map (fun c => c - offset)) (fetches + 1)
    | .expired => .stop stats storage (fetches + 1)
    | .page topics =>
        if topics.isEmpty then .stop stats storage (fetches + 1)
        else
          let existingCount :=
            (topics.filter (fun t => decide (t.topic_id ∈ storage))).length
          if existingCount = topics.length then .stop stats storage (fetches + 1)
          else if existingCount = 0 then
            let r := store_batch_data topics storage
            .next ⟨stats.new_topics + r.1, stats.updated_topics + r.2.1,
                   stats.errors, stats.pages + 1⟩ r.2.2
              (next_end_time topics offset) (fetches + 1)
          else
            let newList := topics.filter (fun t => !decide (t.topic_id ∈ storage))
            let r := store_batch_data newList storage
            .next ⟨stats.new_topics + r.1, stats.updated_topics + r.2.1,
                   stats.errors, stats.pages + 1⟩ r.2.2
              (next_end_time topics offset) (fetches + 1)

/-- The outer `while True` loop of `crawl_latest_until_complete`
(zsxq_interactive_crawler.py:1284-1472), fuelled: `none` in the first
component means the fuel ran out while the code would still be looping.
Also returns the final storage and the number of fetches issued. -/
def crawlLatestGo (src : Option Int → FetchResult) (perPage : Nat) (offset : Int) :
    Nat → Bool → CrawlStats → List Nat → Option Int → Nat →
      Option CrawlStats × List Nat × Nat
  | 0, _, _, storage, _, fetches => (none, storage, fetches)
  | fuel + 1, firstPage, stats, storage, endTime, fetches =>
    match catchRetry src perPage offset firstPage max_retries_per_page
        stats storage endTime fetches with
    | .stop stats' storage' fetches' => (some stats', storage', fetches')
    | .next stats' storage' endTime' fetches' =>
        crawlLatestGo src perPage offset fuel false stats' storage' endTime' fetches'

/-- Catch-up-to-Latest mode, `crawl_latest_until_complete(per_page)`
(zsxq_interactive_crawler.py:1261-1472): starts from "now" (no cursor). -/
def crawl_latest_until_complete (src : Option Int → FetchResult)
    (storage : List Nat) (perPage fuel : Nat) : Option CrawlStats × List Nat × Nat :=
  crawlLatestGo src perPage 1 fuel true ⟨0, 0, 0, 0⟩ storage none 0

/-- Result of `crawl_all_historical`: ordinary stats, the expired dict, or
the `UnboundLocalError` the function raises on its retry-exhaustion branch
(`completed_pages += 1` at zsxq_interactive_crawler.py:1072 — the name
`completed_pages` is never initialised in this function). -/
inductive AllHistResult where
  | stats (s : CrawlStats)
  | expired
  | crashed
deriving Repr, DecidableEq

/-- Step outcome of the per-page retry loop of `crawl_all_historical`. -/
inductive AllStep where
  | done (r : AllHistResult)
  | next (consecEmpty : Nat) (stats : CrawlStats) (storage : List Nat) (endTime : Option Int)
  | crash
deriving Repr, DecidableEq

/-- The inner retry loop of Exhaustive Historical mode
(zsxq_interactive_crawler.py:936-1057).  Remote code 14210 is checked and
returned verbatim.  An empty page bumps `consecutive_empty_pages`; the
third consecutive one ends the mode.  A non-empty page is stored (counting
new/updated against storage) and, when it brought no new ids and is shorter
than `per_page`, the mode returns the accumulated `total_stats` (lines
1035-1038).  Exhausting the retries reaches the uninitialised
`completed_pages += 1` and raises. -/
def allHistRetry (src : Option Int → FetchResult) (perPage : Nat) (offset : Int) :
    Nat → Nat → CrawlStats → List Nat → Option Int → AllStep
  | 0, _, _, _, _ => .crash
  | fuel + 1, consecEmpty, stats, storage, endTime =>
    match src endTime with
    | .expired => .done .expired
    | .failed =>
        allHistRetry src perPage offset fuel consecEmpty
          { stats with errors := stats.errors + 1 } storage
          (endTime.map (fun c => c - offset))
    | .page topics =>
        if topics.isEmpty then
          if 3 ≤ consecEmpty + 1 then .done (.stats stats)
          else .next (consecEmpty + 1) stats storage endTime
        else
          let newCount :=
            (topics.filter (fun t => !decide (t.topic_id ∈ storage))).length
          let r := store_batch_data topics storage
          let stats' : CrawlStats :=
            ⟨stats.new_topics + r.1, stats.updated_topics + r.2.1,
             stats.errors, stats.pages + 1⟩
          if newCount = 0 ∧ topics.length < perPage then .done (.stats stats')
          else .next 0 stats' r.2.2 (next_end_time topics offset)

/-- The outer `while True` loop of `crawl_all_historical`
(zsxq_interactive_crawler.py:924-1092), fuelled; `none` means the fuel ran
out while the code would still be looping. -/
def crawlAllHistoricalGo (src : Option Int → FetchResult) (perPage : Nat) (offset : Int) :
    Nat → Nat → CrawlStats → List Nat → Option Int → Option AllHistResult
  | 0, _, _, _, _ => none
  | fuel + 1, consecEmpty, stats, storage, endTime =>
    match allHistRetry src perPage offset max_retries_per_page
        consecEmpty stats storage endTime with
    | .done r => some r
    | .crash => some .crashed
    | .next consec stats' storage' endTime' =>
        crawlAllHistoricalGo src perPage offset fuel consec stats' storage' endTime'

/-- Exhaustive Historical mode, `crawl_all_historical(per_page)`
(zsxq_interactive_crawler.py:876-1092) with `auto_confirm`: when storage has
data the first cursor is the oldest stored timestamp minus
`timestamp_offset_ms = 1`, otherwise the first request has no cursor. -/
def crawl_all_historical (src : Option Int → FetchResult) (hasData : Bool)
    (oldest : Int) (storage : List Nat) (perPage fuel : Nat) : Option AllHistResult :=
  crawlAllHistoricalGo src perPage 1 fuel 0 ⟨0, 0, 0, 0⟩ storage
    (if hasData then some (oldest - 1) else none)

/-- C1 counterexample.  The claim says that in Bounded Historical mode a
page whose fetch fails `max_retries_per_page` (10) times in a row makes the
session abort, the coarse one-hour-skip fallback being reserved to other
modes.  Against a source that always fails, `crawl_historical` with
`pages = 2` issues 20 failed attempts (`errors = 20`), i.e. after the first
page exhausted its 10 retries the mode skipped the page and went on to the
second one instead of aborting. -/
theorem crawl_historical_retry_exhaustion_continues :
    crawl_historical (fun _ => FetchResult.failed) [] 2 20
      = (ModeResult.stats ⟨0, 0, 20, 0⟩, none)
    ∧ (20 : Nat) ≠ max_retries_per_page := by
  constructor
  · rfl
  · decide

/-- A remote source for exercising retry exhaustion mid-session: the
cursor-less first request yields a full page of two fresh topics
(`create_time` values `t` and `t - 5`), and every cursored request fails. -/
def srcC1 (t : Int) : Option Int → FetchResult
  | none => FetchResult.page [⟨1, t⟩, ⟨2, t - 5⟩]
  | some _ => FetchResult.failed

set_option maxHeartbeats 2000000 in
/-- C1 amended.  On exhausting `max_retries_per_page` for a page, the
bounded (`crawl_historical`) and incremental (`crawl_incremental`) modes do
not abort: they coarse-skip the cursor backward by one hour (when a cursor
exists), count the page as completed, and continue to the next page.  With
`srcC1`: page 1 succeeds (cursor becomes `t - 6`), page 2 fails 10 times
(cursor drifts to `t - 16`), is skipped one hour back, and the session
still ends normally with `errors = 10` recorded.  Incremental mode against
an always-failing source likewise issues 10 attempts and one one-hour skip
per page for both requested pages (20 attempts, two skips). -/
theorem retry_exhaustion_skips_hour_and_continues (t o : Int) :
    crawl_historical (srcC1 t) [] 2 2
      = (ModeResult.stats ⟨2, 0, 10, 1⟩, some (t - 3600016))
    ∧ crawl_incremental (fun _ => FetchResult.failed) [1] o 2 20
      = (ModeResult.stats ⟨0, 0, 20, 0⟩, some (o - 7200021)) := by
  constructor
  · have h : crawl_historical (srcC1 t) [] 2 2
        = (ModeResult.stats ⟨2, 0, 10, 1⟩,
           some (t - 5 - 1 - 1 - 1 - 1 - 1 - 1 - 1 - 1 - 1 - 1 - 1 - 3600000)) := rfl
    rw [h, Prod.mk.injEq]
    refine ⟨rfl, ?_⟩
    rw [Option.some.injEq]
    omega
  · have h : crawl_incremental (fun _ => FetchResult.failed) [1] o 2 20
        = (ModeResult.stats ⟨0, 0, 20, 0⟩,
           some (o - 1 - 1 - 1 - 1 - 1 - 1 - 1 - 1 - 1 - 1 - 1 - 3600000 - 1 - 1 - 1 - 1 - 1 - 1 - 1 - 1 - 1 - 1 - 3600000)) := rfl
    rw [h, Prod.mk.injEq]
    refine ⟨rfl, ?_⟩
    rw [Option.some.injEq]
    omega

/-- C3 counterexample.  The claim says every crawl mode aborts with an
`expired=true` result on remote code 14210.  Bounded Historical mode has no
such check: the expired dict is truthy, carries no `resp_data`, so the mode
sees an empty topic list and returns plain zero stats — a generic stats
dict, not the expired-marked result. -/
theorem crawl_historical_expired_not_marked :
    crawl_historical (fun _ => FetchResult.expired) [] 10 20
      = (ModeResult.stats ⟨0, 0, 0, 0⟩, none)
    ∧ ModeResult.stats ⟨0, 0, 0, 0⟩ ≠ ModeResult.expired :=
  ⟨rfl, by decide⟩

/-- C3 amended.  On remote error code 14210, only the exhaustive
(`crawl_all_historical`) and incremental (`crawl_incremental`) modes abort
immediately and hand the expired-marked result to the caller; the bounded
(`crawl_historical`) and catch-up (`crawl_latest_until_complete`) modes
treat the expired response as an empty page and end with ordinary stats
carrying no expired mark. -/
theorem expired_handling_per_mode :
    crawl_all_historical (fun _ => FetchResult.expired) false 0 [] 20 5
      = some AllHistResult.expired
    ∧ crawl_incremental (fun _ => FetchResult.expired) [1] 1000 10 20
      = (ModeResult.expired, some 999)
    ∧ crawl_historical (fun _ => FetchResult.expired) [] 10 20
      = (ModeResult.stats ⟨0, 0, 0, 0⟩, none)
    ∧ crawl_latest_until_complete (fun _ => FetchResult.expired) [] 20 5
      = (some ⟨0, 0, 0, 0⟩, [], 1) := by
  refine ⟨rfl, rfl, rfl, rfl⟩

/-- Storing a page whose ids are all already present updates every item in
place: no new rows, `updated` equals the page length, storage unchanged. -/
theorem store_batch_data_all_exist (ts : List Topic) (S : List Nat)
    (h : ∀ t ∈ ts, t.topic_id ∈ S) :
    store_batch_data ts S = (0, ts.length, S) := by
  induction ts with
  | nil => rfl
  | cons t ts ih =>
    have ht : t.topic_id ∈ S := h t (List.mem_cons_self t ts)
    rw [store_batch_data, if_pos ht, ih (fun x hx => h x (List.mem_cons_of_mem t hx))]
    rfl

/-- C2 counterexample.  The claim says that when the first page of
Catch-up-to-Latest mode is already fully known, the mode returns stats with
`pages = 1`.  Storage `{1..10}` and a remote page of exactly those ten ids:
the mode does stop after one fetch, but the terminating fully-overlapping
page is never counted, so the returned stats carry `pages = 0`, not 1. -/
theorem catchup_full_overlap_pages_not_counted :
    crawl_latest_until_complete
        (fun _ => FetchResult.page
          [⟨1, 1000⟩, ⟨2, 999⟩, ⟨3, 998⟩, ⟨4, 997⟩, ⟨5, 996⟩,
           ⟨6, 995⟩, ⟨7, 994⟩, ⟨8, 993⟩, ⟨9, 992⟩, ⟨10, 991⟩])
        [1, 2, 3, 4, 5, 6, 7, 8, 9, 10] 20 5
      = (some ⟨0, 0, 0, 0⟩, [1, 2, 3, 4, 5, 6, 7, 8, 9, 10], 1)
    ∧ (⟨0, 0, 0, 0⟩ : CrawlStats).pages ≠ 1 :=
  ⟨rfl, by decide⟩

/-- C2 amended.  In Catch-up-to-Latest mode, when the first fetched page is
non-empty and all its items already exist in storage, the mode terminates
after exactly that one fetch, stores nothing, and returns stats with
`new = 0`, `updated = 0` and `pages = 0` (the terminating page is not
counted). -/
theorem catchup_full_overlap_stops_after_one_fetch
    (S : List Nat) (ts : List Topic) (perPage f : Nat)
    (hne : ts ≠ []) (hall : ∀ t ∈ ts, t.topic_id ∈ S) :
    crawl_latest_until_complete (fun _ => FetchResult.page ts) S perPage (f + 1)
      = (some ⟨0, 0, 0, 0⟩, S, 1) := by
  obtain ⟨a, as, rfl⟩ := List.exists_cons_of_ne_nil hne
  have hfilter : (a :: as).filter (fun t => decide (t.topic_id ∈ S)) = a :: as :=
    List.filter_eq_self.mpr (fun x hx => by simpa using hall x hx)
  have hstep : catchRetry (fun _ => FetchResult.page (a :: as)) perPage 1 true
      max_retries_per_page ⟨0, 0, 0, 0⟩ S none 0
      = CatchStep.stop ⟨0, 0, 0, 0⟩ S 1 := by
    show catchRetry (fun _ => FetchResult.page (a :: as)) perPage 1 true
        (9 + 1) ⟨0, 0, 0, 0⟩ S none 0 = CatchStep.stop ⟨0, 0, 0, 0⟩ S 1
    rw [catchRetry]
    simp only [List.isEmpty_cons, Bool.false_eq_true, if_false, hfilter]
    simp
  show crawlLatestGo (fun _ => FetchResult.page (a :: as)) perPage 1 (f + 1) true
      ⟨0, 0, 0, 0⟩ S none 0 = _
  rw [crawlLatestGo, hstep]

/-- C2 witness: the amended theorem applied to storage `[1]` and a remote
page holding exactly the stored topic. -/
theorem catchup_full_overlap_stops_after_one_fetch_witness :
    crawl_latest_until_complete (fun _ => FetchResult.page [⟨1, 5⟩]) [1] 20 1
      = (some ⟨0, 0, 0, 0⟩, [1], 1) :=
  catchup_full_overlap_stops_after_one_fetch [1] [⟨1, 5⟩] 20 0 (by decide) (by decide)

/-- The partial-overlap scenario of the spec: the cursor-less first request
yields a 20-item page whose first 12 ids are already stored and last 8 are
new; every later (cursored) request yields a page of two already-known
ids. -/
def srcC7 : Option Int → FetchResult
  | none => FetchResult.page
      [⟨1, 2999⟩, ⟨2, 2998⟩, ⟨3, 2997⟩, ⟨4, 2996⟩, ⟨5, 2995⟩,
       ⟨6, 2994⟩, ⟨7, 2993⟩, ⟨8, 2992⟩, ⟨9, 2991⟩, ⟨10, 2990⟩,
       ⟨11, 2989⟩, ⟨12, 2988⟩, ⟨13, 2987⟩, ⟨14, 2986⟩, ⟨15, 2985⟩,
       ⟨16, 2984⟩, ⟨17, 2983⟩, ⟨18, 2982⟩, ⟨19, 2981⟩, ⟨20, 2980⟩]
  | some _ => FetchResult.page [⟨5, 2970⟩, ⟨6, 2969⟩]

/-- C7.  Catch-up-to-Latest on a partially overlapping page: storage holds
ids 1..12 and the first remote page holds ids 1..20 (times descending from
2999), so 12 items exist and 8 are new.  Exactly the 8 new ids are stored
(final storage is the 8 new ids prepended to the old 12), the mode does not
stop there but issues a second fetch at cursor 2979, and — that next page
(ids 5 and 6) being fully known — ends with `new = 8`, `pages = 1`, having
made 2 fetches in total. -/
theorem catchup_partial_overlap_stores_new_and_continues :
    crawl_latest_until_complete srcC7
        [1, 2, 3, 4, 5, 6, 7, 8, 9, 10, 11, 12] 20 5
      = (some ⟨8, 0, 0, 1⟩,
         [20, 19, 18, 17, 16, 15, 14, 13, 1, 2, 3, 4, 5, 6, 7, 8, 9, 10, 11, 12],
         2) :=
  rfl

/-- C10.  In exhaustive (`crawl_all_historical`) and incremental
(`crawl_incremental`) modes, a successfully fetched page with zero topics
absent from storage and fewer than `per_page` topics ends the mode at once:
exhaustive first stores the page (all updates) and returns stats counting
it, incremental returns its accumulated stats before storing anything —
in both cases without any empty page and without exhausting retries. -/
theorem no_new_short_page_ends_exhaustive_and_incremental
    (S : List Nat) (ts : List Topic) (o o2 : Int) (perPage f p : Nat)
    (hne : ts ≠ []) (hall : ∀ t ∈ ts, t.topic_id ∈ S) (hlen : ts.length < perPage) :
    crawl_all_historical (fun _ => FetchResult.page ts) true o S perPage (f + 1)
      = some (AllHistResult.stats ⟨0, ts.length, 0, 1⟩)
    ∧ crawl_incremental (fun _ => FetchResult.page ts) S o2 (p + 1) perPage
      = (ModeResult.stats ⟨0, 0, 0, 0⟩, some (o2 - 1)) := by
  obtain ⟨a, as, rfl⟩ := List.exists_cons_of_ne_nil hne
  have hfilter : (a :: as).filter (fun t => !decide (t.topic_id ∈ S)) = [] :=
    List.filter_eq_nil_iff.mpr (fun x hx => by simpa using hall x hx)
  constructor
  · have hstep : allHistRetry (fun _ => FetchResult.page (a :: as)) perPage 1
        max_retries_per_page 0 ⟨0, 0, 0, 0⟩ S (some (o - 1))
        = AllStep.done (AllHistResult.stats ⟨0, (a :: as).length, 0, 1⟩) := by
      show allHistRetry (fun _ => FetchResult.page (a :: as)) perPage 1
          (9 + 1) 0 ⟨0, 0, 0, 0⟩ S (some (o - 1)) = _
      rw [allHistRetry]
      simp only [List.isEmpty_cons, Bool.false_eq_true, if_false, hfilter,
        store_batch_data_all_exist (a :: as) S hall, List.length_nil]
      have hlen2 : as.length + 1 < perPage := by simpa using hlen
      simp [hlen2]
    show crawlAllHistoricalGo (fun _ => FetchResult.page (a :: as)) perPage 1
        (f + 1) 0 ⟨0, 0, 0, 0⟩ S (some (o - 1)) = _
    rw [crawlAllHistoricalGo, hstep]
  · have hstep : incRetry (fun _ => FetchResult.page (a :: as)) perPage 1
        max_retries_per_page ⟨0, 0, 0, 0⟩ S (some (o2 - 1))
        = IncStep.done (ModeResult.stats ⟨0, 0, 0, 0⟩) (some (o2 - 1)) := by
      show incRetry (fun _ => FetchResult.page (a :: as)) perPage 1
          (9 + 1) ⟨0, 0, 0, 0⟩ S (some (o2 - 1)) = _
      rw [incRetry]
      simp only [List.isEmpty_cons, Bool.false_eq_true, if_false, hfilter,
        List.length_nil]
      have hlen2 : as.length + 1 < perPage := by simpa using hlen
      simp [hlen2]
    show crawlIncrementalGo (fun _ => FetchResult.page (a :: as)) perPage 1
        (p + 1) ⟨0, 0, 0, 0⟩ S (some (o2 - 1)) = _
    rw [crawlIncrementalGo, hstep]

/-- C10 witness: the theorem applied to storage `[1, 2]` and a single-item
page whose id 1 is already stored. -/
theorem no_new_short_page_ends_witness :
    crawl_all_historical (fun _ => FetchResult.page [⟨1, 50⟩]) true 0 [1, 2] 20 1
      = some (AllHistResult.stats ⟨0, 1, 0, 1⟩)
    ∧ crawl_incremental (fun _ => FetchResult.page [⟨1, 50⟩]) [1, 2] 0 1 20
      = (ModeResult.stats ⟨0, 0, 0, 0⟩, some (-1)) :=
  no_new_short_page_ends_exhaustive_and_incremental [1, 2] [⟨1, 50⟩] 0 0 20 0 0
    (by decide) (by decide) (by decide)

/-- The loop body of the crawler's `_interruptible_sleep`
(zsxq_interactive_crawler.py:138-144) on a discrete clock whose tick is the
0.1 s polling interval: while the elapsed tick count is below the duration,
the loop first consults the stop flag (a function of the current tick) and
returns immediately when it is set, otherwise sleeps one tick.  The result
is the tick at which the sleep returned. -/
def interruptibleSleepGo (stopFlag : Nat → Bool) : Nat → Nat → Nat
  | 0, elapsed => elapsed
  | remaining + 1, elapsed =>
    if stopFlag elapsed then elapsed
    else interruptibleSleepGo stopFlag remaining (elapsed + 1)

/-- `_interruptible_sleep(duration)` of the topic crawler, duration in
0.1 s ticks; used by `smart_delay` and `check_page_long_delay`. -/
def interruptible_sleep (stopFlag : Nat → Bool) (durationTicks : Nat) : Nat :=
  interruptibleSleepGo stopFlag durationTicks 0

/-- `download_delay` of the file downloader
(zsxq_file_downloader.py:302-322): the pause is a single plain
`time.sleep(delay)` that never consults the stop flag, so it always runs
for the full duration regardless of cancellation; the downloader's
`smart_delay`, `check_long_delay` and `_apply_download_intervals` sleep the
same way. -/
def download_delay (_stopFlag : Nat → Bool) (durationTicks : Nat) : Nat :=
  durationTicks

/-- C4 counterexample.  The claim says every delay of the file downloader
is an interruptible ~100 ms-polling sleep returning within about one
polling interval of the stop flag being set.  With the stop flag already
set, a 60 s (600-tick) `download_delay` still runs all 600 ticks — far more
than one interval — while the crawler's `_interruptible_sleep` returns at
tick 0. -/
theorem download_delay_not_interruptible :
    download_delay (fun _ => true) 600 = 600
    ∧ ¬ download_delay (fun _ => true) 600 ≤ 1
    ∧ interruptible_sleep (fun _ => true) 600 = 0 := by decide

/-- Once the stop flag reads true at some tick, the crawler's interruptible
sleep cannot run past that tick. -/
theorem interruptibleSleepGo_le (stopFlag : Nat → Bool) (s : Nat)
    (hs : stopFlag s = true) :
    ∀ (remaining elapsed : Nat), elapsed ≤ s →
      interruptibleSleepGo stopFlag remaining elapsed ≤ s := by
  intro remaining
  induction remaining with
  | zero => intro e he; simpa [interruptibleSleepGo] using he
  | succ r ih =>
    intro e he
    rw [interruptibleSleepGo]
    cases hsf : stopFlag e with
    | true => simpa using he
    | false =>
      have hne : e ≠ s := by
        intro hes
        rw [hes, hs] at hsf
        exact absurd hsf (by decide)
      simp only [Bool.false_eq_true, if_false]
      exact ih (e + 1) (by omega)

/-- C4 amended.  Only the topic crawler executes its inter-request delay
and batch long-sleep through `_interruptible_sleep`, which re-checks the
stop flag every polling tick and therefore returns no later than the tick
at which the flag reads true; the file downloader's `download_delay` is an
uninterruptible `time.sleep` that always runs for its full duration. -/
theorem crawler_sleep_interruptible_downloader_not :
    (∀ (stopFlag : Nat → Bool) (d s : Nat), stopFlag s = true →
        interruptible_sleep stopFlag d ≤ s)
    ∧ (∀ (stopFlag : Nat → Bool) (d : Nat), download_delay stopFlag d = d) :=
  ⟨fun stopFlag d s hs => interruptibleSleepGo_le stopFlag s hs d 0 (Nat.zero_le s),
   fun _ _ => rfl⟩

/-- C4 witness: with the stop flag set from tick 0 the crawler's 600-tick
sleep returns at tick 0, the downloader's runs all 600 ticks. -/
theorem crawler_sleep_interruptible_witness :
    interruptible_sleep (fun _ => true) 600 ≤ 0
    ∧ download_delay (fun _ => true) 600 = 600 :=
  ⟨crawler_sleep_interruptible_downloader_not.1 (fun _ => true) 600 0 rfl,
   crawler_sleep_interruptible_downloader_not.2 (fun _ => true) 600⟩

/-- One `is_stopped()` call (zsxq_interactive_crawler.py:127-136 and the
identical zsxq_file_downloader.py:149-158): given the current `stop_flag`
and the external checker's answer for this call (`none` models
`stop_check_func` being unset), returns the call's result and the new
`stop_flag` — the flag is set when the checker fires and is never
cleared by any code path. -/
def is_stopped (stopFlag : Bool) (check : Option Bool) : Bool × Bool :=
  if stopFlag then (true, true)
  else
    match check with
    | some true => (true, true)
    | some false => (false, stopFlag)
    | none => (false, stopFlag)

/-- A session-long sequence of `is_stopped()` calls, threading the flag:
returns the final flag and the list of results. -/
def runIsStopped : Bool → List (Option Bool) → Bool × List Bool
  | flag, [] => (flag, [])
  | flag, c :: cs =>
    let r := is_stopped flag c
    let rest := runIsStopped r.2 cs
    (rest.1, r.1 :: rest.2)

/-- Once the flag is true, every later call returns true and keeps it. -/
theorem runIsStopped_true (cs : List (Option Bool)) :
    runIsStopped true cs = (true, List.replicate cs.length true) := by
  induction cs with
  | nil => rfl
  | cons c cs ih => rw [runIsStopped]; simp [is_stopped, ih, List.replicate_succ]

/-- C9.  `is_stopped()` is latching in both the crawler and the file
downloader: as soon as one call returns true (local flag set, or the
external checker fired once), the flag is true and never cleared, so every
subsequent `is_stopped()` call of the session returns true — even when the
external checker answers false from then on — and the final flag is still
true. -/
theorem is_stopped_latching (flag : Bool) (c : Option Bool)
    (cs : List (Option Bool)) (h : (is_stopped flag c).1 = true) :
    (runIsStopped (is_stopped flag c).2 cs).2.all (fun b => b == true) = true
    ∧ (runIsStopped (is_stopped flag c).2 cs).1 = true := by
  have h2 : (is_stopped flag c).2 = true := by
    revert h
    cases flag <;> rcases c with _ | _ | _ <;> decide
  rw [h2, runIsStopped_true]
  simp [List.all_eq_true]

/-- C9 witness: the checker fires once, then answers false twice; both
later calls still report stopped. -/
theorem is_stopped_latching_witness :
    (runIsStopped (is_stopped false (some true)).2
        [some false, some false]).2.all (fun b => b == true) = true
    ∧ (runIsStopped (is_stopped false (some true)).2 [some false, some false]).1
      = true :=
  is_stopped_latching false (some true) [some false, some false] rfl

/-- The three local-dedup outcomes of `download_file`
(zsxq_file_downloader.py:546-584): stopped before doing anything, skipped
because the file at the target path already has the remote-reported size,
or proceeding to request a download URL. -/
inductive DownloadCheck where
  | stoppedOut
  | skipped
  | proceed
deriving Repr, DecidableEq

/-- The prefix of `download_file` up to the `get_download_url` call
(zsxq_file_downloader.py:559-584): after the stop check, the local file's
size at the target path (`none` when the path does not exist) is compared
against the remote-reported size; on a match the function returns the
`"skipped"` outcome at once.  The boolean records whether
`get_download_url` — the first network request of the function — is
reached. -/
def download_file_dedup (stop : Bool) (localSize : Option Nat)
    (remoteSize : Nat) : DownloadCheck × Bool :=
  if stop then (.stoppedOut, false)
  else
    match localSize with
    | some sz => if sz = remoteSize then (.skipped, false) else (.proceed, true)
    | none => (.proceed, true)

/-- C8.  `download_file` requests a download URL only when no local file at
the target path already has the remote-reported byte size; when the path
exists with a matching size the file is skipped (the `"skipped"` outcome)
without issuing any network request. -/
theorem download_file_skip_avoids_request (localSize : Option Nat) (remoteSize : Nat) :
    (localSize = some remoteSize →
      download_file_dedup false localSize remoteSize = (DownloadCheck.skipped, false))
    ∧ ((download_file_dedup false localSize remoteSize).2 = true →
      localSize ≠ some remoteSize) := by
  constructor
  · rintro rfl
    simp [download_file_dedup]
  · intro h heq
    rw [heq] at h
    simp [download_file_dedup] at h

/-- C8 witness: a local file of the exact remote size is skipped with no
URL request. -/
theorem download_file_skip_avoids_request_witness :
    download_file_dedup false (some 5) 5 = (DownloadCheck.skipped, false) :=
  (download_file_skip_avoids_request (some 5) 5).1 rfl

/-- The graduated wait of `fetch_comments_safe`
(zsxq_interactive_crawler.py:386-399 and 413-425), indexed by the 0-based
`retry` loop variable: `retry < 3` waits 2 s, `retry < 6` waits 5 s,
otherwise 10 s; the same schedule serves the rate-limit (1059) branch and
the exception branch. -/
def comment_retry_wait (retry : Nat) : Nat :=
  if retry < 3 then 2 else if retry < 6 then 5 else 10

/-- The `for retry in range(max_retries)` loop of `fetch_comments_safe`
against a source whose every attempt reports the rate-limit code 1059:
each attempt but the last is followed by the graduated wait, the last
gives up.  Returns (number of attempts made, list of waits slept). -/
def fetchCommentsRateLimitedGo (maxRetries : Nat) : Nat → Nat → Nat × List Nat
  | 0, _ => (0, [])
  | fuel + 1, retryIdx =>
    if retryIdx < maxRetries - 1 then
      let rest := fetchCommentsRateLimitedGo maxRetries fuel (retryIdx + 1)
      (rest.1 + 1, comment_retry_wait retryIdx :: rest.2)
    else (1, [])

/-- `fetch_comments_safe` under permanent rate-limiting. -/
def fetch_comments_all_rate_limited (maxRetries : Nat) : Nat × List Nat :=
  fetchCommentsRateLimitedGo maxRetries maxRetries 0

/-- C6.  The wait before the next attempt after a transient failure
(rate-limit code 1059 or an exception) follows the graduated schedule
indexed by the 1-based attempt number `n` (the code's `retry = n - 1`):
attempts 1-3 wait 2 s, attempts 4-6 wait 5 s, attempts 7-10 wait 10 s;
and under permanent rate-limiting the default `max_retries = 10` yields
exactly 10 attempts with the wait sequence 2,2,2,5,5,5,10,10,10 (no wait
after the final, abandoned attempt). -/
theorem comment_retry_wait_schedule (n : Nat) :
    (1 ≤ n → n ≤ 3 → comment_retry_wait (n - 1) = 2)
    ∧ (4 ≤ n → n ≤ 6 → comment_retry_wait (n - 1) = 5)
    ∧ (7 ≤ n → n ≤ 10 → comment_retry_wait (n - 1) = 10)
    ∧ fetch_comments_all_rate_limited 10 = (10, [2, 2, 2, 5, 5, 5, 10, 10, 10]) := by
  refine ⟨?_, ?_, ?_, by decide⟩ <;>
    · intro h1 h2
      unfold comment_retry_wait
      split_ifs <;> omega

/-- C6 witness: the 8th attempt's wait is 10 s. -/
theorem comment_retry_wait_schedule_witness : comment_retry_wait (8 - 1) = 10 :=
  (comment_retry_wait_schedule 8).2.2.1 (by decide) (by decide)

/-- C5.  Cursor advance in the crawl loops (stated on the bounded mode's
retry loop; the cursor computation `next_end_time` is shared verbatim by
all four modes): against a remote feed that only returns items at or before
the requested cursor and with a positive `timestamp_offset_ms`, whenever a
page is successfully consumed starting from cursor `c`, the next cursor
equals the create_time of the page's oldest item (`topics[-1]`) minus the
offset, and it is strictly below `c` — consecutive cursors within a session
are strictly decreasing. -/
theorem cursor_advance_strictly_decreasing (src : Option Int → FetchResult)
    (hsrc : ∀ (r : Int) (ts : List Topic),
      src (some r) = FetchResult.page ts → ∀ t ∈ ts, t.create_time ≤ r)
    (offset : Int) (hoff : 1 ≤ offset) (perPage : Nat) :
    ∀ (fuel : Nat) (stats s' : CrawlStats) (storage st' : List Nat)
      (c : Int) (et' : Option Int),
      retryPage src perPage offset false fuel stats storage (some c)
        = PageOutcome.pageDone s' st' et' →
      ∃ (c' : Int) (ts : List Topic) (t : Topic),
        c' ≤ c ∧ src (some c') = FetchResult.page ts ∧ ts.getLast? = some t ∧
        et' = some (t.create_time - offset) ∧ t.create_time - offset < c := by
  intro fuel
  induction fuel with
  | zero =>
    intro stats s' storage st' c et' h
    rw [retryPage] at h
    exact absurd h (by simp)
  | succ n ih =>
    intro stats s' storage st' c et' h
    rw [retryPage] at h
    simp only [Bool.false_eq_true, if_false] at h
    cases hsc : src (some c) with
    | failed =>
      rw [hsc] at h
      simp only [Option.map_some'] at h
      obtain ⟨c', ts, t, hc', hpage, hlast, het, hlt⟩ := ih _ _ _ _ _ _ h
      exact ⟨c', ts, t, by omega, hpage, hlast, het, by omega⟩
    | expired =>
      rw [hsc] at h
      exact absurd h (by simp)
    | page ts =>
      rw [hsc] at h
      dsimp only [] at h
      by_cases hemp : ts.isEmpty
      · rw [if_pos hemp] at h
        exact absurd h (by simp)
      · simp only [if_neg hemp] at h
        by_cases hshort : ts.length < perPage
        · simp only [if_pos hshort] at h
          exact absurd h (by simp)
        · simp only [if_neg hshort] at h
          have hne : ts ≠ [] := by
            intro hnil
            rw [hnil] at hemp
            exact hemp rfl
          have hlast := List.getLast?_eq_getLast_of_ne_nil hne
          have hmem := List.getLast_mem hne
          have hle := hsrc c ts hsc (ts.getLast hne) hmem
          obtain ⟨h1, h2, h3⟩ := PageOutcome.pageDone.inj h
          refine ⟨c, ts, ts.getLast hne, le_refl c, hsc, hlast, ?_, by omega⟩
          rw [← h3]
          simp [next_end_time, hlast]

/-- A remote source satisfying the cursor-respecting feed contract: every
cursored request returns one item three milliseconds older than the
cursor. -/
def srcCursor : Option Int → FetchResult
  | none => FetchResult.failed
  | some r => FetchResult.page [⟨1, r - 3⟩]

/-- C5 witness: one step of the bounded retry loop from cursor 100 with
`per_page = 1` and offset 1 consumes the page `[⟨1, 97⟩]` and moves the
cursor to `96 = 97 - 1 < 100`. -/
theorem cursor_advance_strictly_decreasing_witness :
    ∃ (c' : Int) (ts : List Topic) (t : Topic),
      c' ≤ 100 ∧ srcCursor (some c') = FetchResult.page ts ∧
      ts.getLast? = some t ∧
      (some 96 : Option Int) = some (t.create_time - 1) ∧
      t.create_time - 1 < 100 :=
  cursor_advance_strictly_decreasing srcCursor
    (by
      intro r ts h t ht
      simp only [srcCursor, FetchResult.page.injEq] at h
      rw [← h] at ht
      simp only [List.mem_singleton] at ht
      have hct : t.create_time = r - 3 := by rw [ht]
      omega)
    1 (by decide) 1 10 ⟨0, 0, 0, 0⟩ ⟨1, 0, 0, 1⟩ [] [1] 100 (some 96) (by decide)

end ZsxqCrawler
